import Mathlib

/-!
# Verification of the Reference Resolution + Deterministic Audit Engine

A shallow embedding, in Lean 4, of the deterministic core of the cost-estimate
audit system: `core/state.py` (data model), `core/calculator.py` (base-cost
formula, coefficient composition, verdict, discrepancy analysis) and
`tools/db_search.py` (reference resolution against the reference store).

Modelling conventions:
* Python `float` is modelled as `ℚ` (exact real-valued semantics; no claim
  below depends on binary floating-point rounding).
* Python `Optional[T]` is `Option T`; a raised exception is an `Except` error.
* Python's `round(x, 2)` and `"{:.2f}"` formatting are modelled with
  round-half-up on `ℚ` (Python uses round-half-even on binary floats; no
  theorem below depends on tie behaviour).
* The MongoDB collections behind `db_search` are modelled as in-memory lists
  queried in natural order, which matches `find_one` / `find` semantics used
  by the code.
-/

namespace CostAudit

/-- The distinct raise sites of the embedded code.  Each constructor carries
the exception message built exactly as in the source; the constructor names
follow the spec's error taxonomy (`NotFoundError`, `PositionNotFoundError`,
`UnknownStrategyError`, `MissingInputError`). -/
inductive PyErr where
  | noTable (msg : String)
  | noPositions (msg : String)
  | positionNotFound (msg : String)
  | unknownStrategy (msg : String)
  | missingState (msg : String)
  | attrErr
  deriving DecidableEq, Repr

/-- Model of Python `str.upper` restricted to the alphabets the code
compares: ASCII `a`-`z` and Cyrillic `а`-`я` (U+0430..U+044F) map to their
uppercase forms 32 codepoints below; `ё` maps to `Ё`; everything else is
unchanged. -/
def pyUpperChar (c : Char) : Char :=
  if 'a' ≤ c ∧ c ≤ 'z' then Char.ofNat (c.toNat - 32)
  else if 'а' ≤ c ∧ c ≤ 'я' then Char.ofNat (c.toNat - 32)
  else if c = 'ё' then 'Ё'
  else c

/-- Python `s.upper()` (restricted as described at `pyUpperChar`), mapped
over the string's character list. -/
def pyUpper (s : String) : String := ⟨s.data.map pyUpperChar⟩

/-- Render `n` (the value scaled by `10^k` and rounded to an integer) as a
fixed-point decimal string with `k` digits after the dot. -/
def formatFixedInt (k : Nat) (n : ℤ) : String :=
  let sign := if n < 0 then "-" else ""
  let m := n.natAbs
  let ip := m / 10 ^ k
  let fp := m % 10 ^ k
  let fpStr := toString fp
  let pad := String.mk (List.replicate (k - fpStr.length) '0')
  sign ++ toString ip ++ "." ++ pad ++ fpStr

/-- Fixed-point (`"{:.k f}"`-style) rendering of a rational: round to `k`
decimal digits (half-up) and print with exactly `k` digits after the dot. -/
def formatFixed (k : Nat) (x : ℚ) : String :=
  formatFixedInt k (round (x * (10 : ℚ) ^ k))

/-- Python `"{:.2f}".format x`. -/
def formatFixed2 (x : ℚ) : String := formatFixed 2 x

/-- Python `round(x, 2)` (half-up model, see the header comment). -/
def round2 (x : ℚ) : ℚ := (round (x * 100) : ℤ) / 100

/-- Smallest number of decimal digits (capped at 17, like Python's shortest
round-trip repr length) that renders `x` exactly. -/
def pyFloatDigits (x : ℚ) : Nat :=
  (List.range 17).find? (fun k => x.den ∣ 10 ^ (k + 1)) |>.map (· + 1) |>.getD 17

/-- Model of Python `str(float)` for the values arising in messages: an
integral value prints as `n.0`, otherwise the shortest exact decimal
expansion (truncated to 17 digits for non-terminating rationals). -/
def pyFloatStr (x : ℚ) : String :=
  if x.den == 1 then toString x.num ++ ".0"
  else formatFixed (pyFloatDigits x) x

/-- Split a character list on a separator character. -/
def splitOnCharAux (sep : Char) : List Char → List (List Char)
  | [] => [[]]
  | c :: cs =>
    let r := splitOnCharAux sep cs
    if c = sep then [] :: r
    else
      match r with
      | [] => [[c]]
      | h :: t => (c :: h) :: t

/-- Python `s.split(sep)` for a single-character separator (also the
behaviour of `str.split("-")` used on `source_position_id`): `"a--b"` splits
to `["a", "", "b"]` and `""` to `[""]`. -/
def pySplit (s : String) (sep : Char) : List String :=
  (splitOnCharAux sep s.data).map fun l => ⟨l⟩

/-! ## Data model (`core/state.py`) -/

/-- Model of `CoefficientData` of `core/state.py`. -/
structure CoefficientData where
  id : Option String := none
  value : Option ℚ := none
  reason : Option String := none
  deriving DecidableEq, Repr

/-- Model of `CoefficientData.is_valid` of `core/state.py`. -/
def CoefficientData.is_valid (c : CoefficientData) : Bool :=
  match c.value with
  | some v => decide (0.1 ≤ v ∧ v ≤ 10.0)
  | none => false

/-- Model of `RawInput` of `core/state.py`. -/
structure RawInput where
  text_description : String
  table_code_claimed : String
  position_number : ℤ
  X_claimed : ℚ
  total_claimed : ℚ
  year : ℤ := 2024
  claimed_coefficients : List CoefficientData := []
  extracted_tags : List String := []
  deriving DecidableEq, Repr

/-- Model of `ReferenceData` of `core/state.py`.  The `formula_strategy` `Literal` is
modelled as a `String` since `_compute_base` dispatches on the string value
(and raises on anything unrecognised). -/
structure ReferenceData where
  ref_A : ℚ
  ref_B : ℚ
  range_min : ℚ
  range_max : ℚ
  formula_strategy : String := "standard"
  valid_coefficients : List CoefficientData := []
  source_position_id : Option String := none
  deriving DecidableEq, Repr

/-- A scalar value stored in a discrepancy's `details` dict. -/
inductive PyVal where
  | I (z : ℤ)
  | Q (q : ℚ)
  | S (s : String)
  | N
  deriving DecidableEq, Repr

/-- Model of `Discrepancy` of `core/state.py`; the `details` dict is a key/value list
in insertion order. -/
structure Discrepancy where
  type : String
  severity : String
  message : String
  details : Option (List (String × PyVal)) := none
  deriving DecidableEq, Repr

/-- One entry of `CalculationBreakdown.coefficients_applied` (a Python dict
with keys `id`, `value`, `reason`). -/
structure AppliedCoeff where
  id : String
  value : ℚ
  reason : String
  deriving DecidableEq, Repr

/-- Model of `CalculationBreakdown` of `core/state.py`. -/
structure CalculationBreakdown where
  base_cost : Option ℚ := none
  coefficients_applied : List AppliedCoeff := []
  final_cost : Option ℚ := none
  formula_used : Option String := none
  deriving DecidableEq, Repr

/-- Model of `AuditVerdict` of `core/state.py`. -/
structure AuditVerdict where
  calculated_total : Option ℚ := none
  is_approved : Bool := false
  reason : Option String := none
  discrepancies : List Discrepancy := []
  calculation_breakdown : Option CalculationBreakdown := none
  deriving DecidableEq, Repr

/-- Model of `RowState` of `core/state.py`. -/
structure RowState where
  id : String
  raw_input : Option RawInput := none
  reference_data : Option ReferenceData := none
  audit_verdict : AuditVerdict := {}
  deriving DecidableEq, Repr

/-! ## Calculator (`core/calculator.py`) -/

/-- Model of `_compute_base` of `core/calculator.py` (lines 9–23): dispatch on the
formula strategy string; unknown strategies raise
`ValueError(f"Unknown formula strategy '{strategy}'.")`. -/
def compute_base (reference : ReferenceData) (x_given : ℚ) : Except PyErr ℚ :=
  let a := reference.ref_A
  let b := reference.ref_B
  let strategy := reference.formula_strategy
  if strategy = "standard" then
    .ok (a + b * x_given)
  else if strategy = "extrapolation_above" then
    .ok (a + b * (0.4 * reference.range_max + 0.6 * x_given))
  else if strategy = "extrapolation_below" then
    .ok (a + b * (0.6 * reference.range_min + 0.4 * x_given))
  else
    .error (.unknownStrategy ("Unknown formula strategy '" ++ strategy ++ "'."))

/-- The check `coef.id and coef.id.upper() in ['K1', 'K2', 'К1', 'К2']` of
`core/calculator.py` (lines 52 and 246): the id is truthy (present and
non-empty) and uppercases to a Latin or Cyrillic stage-1/2 alias. -/
def isStageAliasId : Option String → Bool
  | none => false
  | some s => !s.isEmpty && (pyUpper s == "K1" || pyUpper s == "K2"
      || pyUpper s == "К1" || pyUpper s == "К2")

/-- The database-side survivor filter of `core/calculator.py` (lines 37–41 and
237–240): keep a coefficient iff its value is present and lies in
`[0.1, 10.0]`. -/
def dbSideSurvivors (cs : List CoefficientData) : List CoefficientData :=
  cs.filter fun c =>
    match c.value with
    | some v => decide (0.1 ≤ v ∧ v ≤ 10.0)
    | none => false

/-- The claim-side survivor filter of `core/calculator.py` (lines 45–57 and
242–249): drop missing values, drop stage-1/2 aliases (already supplied by
the reference lookup), keep the rest iff the value lies in `[0.1, 10.0]`. -/
def claimSideSurvivors (cs : List CoefficientData) : List CoefficientData :=
  cs.filter fun c =>
    match c.value with
    | some v => !isStageAliasId c.id && decide (0.1 ≤ v ∧ v ≤ 10.0)
    | none => false

/-- The value of a surviving coefficient.  Both survivor filters only keep
coefficients whose `value` is present, so the `getD` default is never used. -/
def cval (c : CoefficientData) : ℚ := c.value.getD 0

/-- The list `all_coefficients` built inline in `run_deterministic_calculator`
(`core/calculator.py` lines 235–249): database-side survivors followed by
claim-side survivors. -/
def allSurvivors (dbCs claimCs : List CoefficientData) : List CoefficientData :=
  dbSideSurvivors dbCs ++ claimSideSurvivors claimCs

/-- The combined multiplier `k_total` of `run_deterministic_calculator`
(`core/calculator.py` line 252): the product of all surviving coefficient
values, `1.0` when none survive. -/
def coeffProductAll (dbCs claimCs : List CoefficientData) : ℚ :=
  let all := allSurvivors dbCs claimCs
  if all.isEmpty then 1 else (all.map cval).prod

/-- Model of `_coeff_product` of `core/calculator.py` (lines 26–62).  The standalone
helper applies the same two filters to `reference.valid_coefficients` and (when
a raw input is supplied) `raw_input.claimed_coefficients`. -/
def coeff_product (reference : ReferenceData) (raw_input : Option RawInput) : ℚ :=
  let all := dbSideSurvivors reference.valid_coefficients ++
    (match raw_input with
     | some ri => claimSideSurvivors ri.claimed_coefficients
     | none => [])
  if all.isEmpty then 1 else (all.map cval).prod

/-- Model of `_detect_discrepancies` of `core/calculator.py` (lines 65–169).  The
Python function reads `state.raw_input` and `state.reference_data`, which the
caller has already checked to be present, so the embedding takes them
directly.  The parameters `base` and `all_coefficients` are accepted and
unused, exactly as in the source. -/
def detect_discrepancies (ri : RawInput) (rd : ReferenceData) (base : ℚ)
    (calculated_total claimed_in_thousands : ℚ)
    (all_coefficients : List CoefficientData) (delta_percent : ℚ) :
    List Discrepancy :=
  -- 1. reference-edition year check, parsed from source_position_id
  let yearDiscs : List Discrepancy :=
    match rd.source_position_id with
    | none => []
    | some spid =>
      let parts := pySplit spid '-'
      let last := parts.getLastD ""
      if parts.length ≥ 5 ∧ (¬last.data.isEmpty ∧ last.data.all Char.isDigit) ∧
          last.data.length = 4 then
        let db_year : ℤ :=
          ((last.data.foldl (fun n c => n * 10 + (c.toNat - 48)) 0 : ℕ) : ℤ)
        if ri.year ≠ db_year then
          [{ type := "year_mismatch", severity := "critical",
             message := "Использован Сборник цен на проектные работы (СЦП) за неверный период. Указан " ++
               toString ri.year ++ " год, но должен быть " ++ toString db_year ++ " год.",
             details := some [("claimed_year", .I ri.year),
               ("correct_year", .I db_year),
               ("source_table", .S ri.table_code_claimed)] }]
        else []
      else []
  -- 2. constants check: any deviation beyond 5% flags the A/B constants
  let constDiscs : List Discrepancy :=
    if delta_percent > 5.0 then
      [{ type := "constant_mismatch", severity := "critical",
         message := "Применены неверные постоянные величины стоимости разработки рабочей документации. A=" ++
           formatFixed2 rd.ref_A ++ ", B=" ++ formatFixed2 rd.ref_B,
         details := some [("ref_A", .Q rd.ref_A), ("ref_B", .Q rd.ref_B),
           ("table_code", .S ri.table_code_claimed),
           ("position", .I ri.position_number)] }]
    else []
  -- 3. plausibility band for claim-side coefficients
  let claimed_coeffs := ri.claimed_coefficients.filter fun c =>
    c.value.isSome && (match c.id with
      | some s => !s.isEmpty && !(pyUpper s == "K1" || pyUpper s == "K2"
          || pyUpper s == "К1" || pyUpper s == "К2")
      | none => false)
  let coeffDiscs : List Discrepancy := claimed_coeffs.filterMap fun c =>
    match c.value with
    | some v =>
      if v ≠ 0 ∧ (v < 0.5 ∨ v > 3.0) then
        some { type := "coefficient_unusual", severity := "warning",
               message := "Применен необычный коэффициент " ++ (c.id.getD "") ++ "=" ++
                 pyFloatStr v ++ ". Стандартные значения находятся в диапазоне 0.5-3.0.",
               details := some [("coefficient_id", .S (c.id.getD "")),
                 ("value", .Q v),
                 ("reason", match c.reason with | some r => .S r | none => .N)] }
      else none
    | none => none
  -- 4. quantity range check
  let rangeDiscs : List Discrepancy :=
    if ri.X_claimed < rd.range_min ∨ ri.X_claimed > rd.range_max then
      [{ type := "value_out_of_range", severity := "warning",
         message := "Количественный показатель X=" ++ formatFixed2 ri.X_claimed ++
           " выходит за пределы нормативного диапазона [" ++
           formatFixed2 rd.range_min ++ ", " ++ formatFixed2 rd.range_max ++ "].",
         details := some [("X_claimed", .Q ri.X_claimed),
           ("range_min", .Q rd.range_min), ("range_max", .Q rd.range_max),
           ("extrapolation_used", .S rd.formula_strategy)] }]
    else []
  -- 5. excess deviation restated
  let deviationDiscs : List Discrepancy :=
    if delta_percent > 5.0 then
      let delta := |calculated_total - claimed_in_thousands|
      [{ type := "calculation_deviation", severity := "critical",
         message := "Обнаружено значительное отклонение в расчетах: " ++
           formatFixed2 delta ++ " тыс.тг (" ++ formatFixed2 delta_percent ++
           "%). Допустимое отклонение: ≤5%.",
         details := some [("calculated", .Q calculated_total),
           ("claimed", .Q claimed_in_thousands),
           ("deviation_amount", .Q delta),
           ("deviation_percent", .Q delta_percent),
           ("tolerance", .Q 5.0)] }]
    else []
  yearDiscs ++ constDiscs ++ coeffDiscs ++ rangeDiscs ++ deviationDiscs

/-- Model of `_build_calculation_breakdown` of `core/calculator.py` (lines 172–209). -/
def build_calculation_breakdown (base : ℚ) (all_coefficients : List CoefficientData)
    (calculated_total : ℚ) (ri : RawInput) (rd : ReferenceData) :
    CalculationBreakdown :=
  let coeffs_applied : List AppliedCoeff := all_coefficients.map fun c =>
    { id := match c.id with
        | some s => if s.isEmpty then "K" else s
        | none => "K",
      value := cval c,
      reason := match c.reason with
        | some r => if r.isEmpty then "Коэффициент из сметы" else r
        | none => "Коэффициент из сметы" }
  let head := "(" ++ formatFixed2 rd.ref_A ++ " + " ++ formatFixed2 rd.ref_B ++
    " × " ++ formatFixed2 ri.X_claimed ++ ")"
  let formula_used :=
    (if coeffs_applied.isEmpty then head
     else head ++ " × " ++
       String.intercalate " × " (coeffs_applied.map fun c => formatFixed2 c.value)) ++
    " = " ++ formatFixed2 calculated_total ++ " тыс.тг"
  { base_cost := some (round2 base),
    coefficients_applied := coeffs_applied,
    final_cost := some (round2 calculated_total),
    formula_used := some formula_used }

/-- Model of `run_deterministic_calculator` of `core/calculator.py` (lines 212–289).
The `tolerance` parameter is accepted and unused, exactly as in the source. -/
def run_deterministic_calculator (state : RowState) (tolerance : ℚ := 100) :
    Except PyErr RowState :=
  match state.raw_input with
  | none => .error (.missingState "RowState.raw_input is empty. Run the structurer agent first.")
  | some ri =>
    match state.reference_data with
    | none => .error (.missingState "RowState.reference_data is empty. Run the auditor agent first.")
    | some reference =>
      let x_given := ri.X_claimed
      let claimed_total := ri.total_claimed
      match compute_base reference x_given with
      | .error e => .error e
      | .ok base =>
      let all_coefficients := allSurvivors reference.valid_coefficients ri.claimed_coefficients
      let k_total := coeffProductAll reference.valid_coefficients ri.claimed_coefficients
      let calculated_total := base * k_total
      let claimed_in_thousands :=
        if claimed_total > 1000000 then claimed_total / 1000 else claimed_total
      let delta := |calculated_total - claimed_in_thousands|
      let delta_percent :=
        if claimed_in_thousands > 0 then delta / claimed_in_thousands * 100 else 0
      let is_approved := decide (delta_percent ≤ 5.0)
      let reason :=
        if is_approved then
          "Match within " ++ formatFixed2 delta_percent ++ "% tolerance"
        else
          "Deviation " ++ formatFixed2 delta ++ " тыс.тг (" ++
            formatFixed2 delta_percent ++ "%)"
      let discrepancies := detect_discrepancies ri reference base calculated_total
        claimed_in_thousands all_coefficients delta_percent
      let breakdown := build_calculation_breakdown base all_coefficients
        calculated_total ri reference
      .ok { state with audit_verdict :=
        { calculated_total := some (round2 calculated_total),
          is_approved := is_approved,
          reason := some reason,
          discrepancies := discrepancies,
          calculation_breakdown := some breakdown } }

/-! ## Reference resolution (`tools/db_search.py`) -/

/-- Model of Python `str.lower` restricted to the same alphabets as
`pyUpperChar`. -/
def pyLowerChar (c : Char) : Char :=
  if 'A' ≤ c ∧ c ≤ 'Z' then Char.ofNat (c.toNat + 32)
  else if 'А' ≤ c ∧ c ≤ 'Я' then Char.ofNat (c.toNat + 32)
  else if c = 'Ё' then 'ё'
  else c

/-- Python `s.lower()` (restricted as described at `pyLowerChar`), mapped
over the string's character list. -/
def pyLower (s : String) : String := ⟨s.data.map pyLowerChar⟩

/-- A position row of a reference table, as read from the `tables` collection
(`matching_row.get(...)` keys of `DBSearchTool._run`). -/
structure Row where
  position_number : Option ℤ := none
  is_subtitle : Bool := false
  param_a : Option ℚ := none
  param_b : Option ℚ := none
  k1 : Option ℚ := none
  k2 : Option ℚ := none
  position_id : Option String := none
  object_name : Option String := none
  deriving DecidableEq, Repr

/-- A document of the `tables` collection. -/
structure Table where
  table_code : String
  year : ℤ
  name_ru : Option String := none
  positions : List Row := []
  deriving DecidableEq, Repr

/-- A document of the `coefficients` collection (`_id`, `applies_to.codes`,
`condition_full`, `coefficient_value`). -/
structure CoeffDoc where
  id : String
  applies_to_codes : List String := []
  condition_full : Option String := none
  coefficient_value : Option ℚ := none
  deriving DecidableEq, Repr

/-- The reference store: its two collections, each queried in natural order
(the semantics of `find_one` / `find` as used by the code). -/
structure DB where
  tables : List Table := []
  coefficients : List CoeffDoc := []
  deriving DecidableEq, Repr

/-- The dict returned by `DBSearchTool._find_section`. -/
structure TableData where
  code : String
  name_ru : Option String
  rows : List Row
  table : Table
  deriving DecidableEq, Repr

/-- A coefficient dict `{id, value, reason}` produced by
`DBSearchTool._match_coefficients` or the stage-coefficient merge. -/
structure MatchedCoeff where
  id : String
  value : ℚ
  reason : String
  deriving DecidableEq, Repr

/-- The dict returned by `DBSearchTool._run`. -/
structure RefOut where
  ref_A : ℚ
  ref_B : ℚ
  range_min : ℚ
  range_max : ℚ
  formula_strategy : String
  valid_coefficients : List MatchedCoeff
  source_position_id : Option String
  deriving DecidableEq, Repr

/-- Insert into a descending-sorted list, keeping it descending. -/
def insertDesc (x : ℤ) : List ℤ → List ℤ
  | [] => [x]
  | y :: ys => if y ≤ x then x :: y :: ys else y :: insertDesc x ys

/-- Descending insertion sort: the model of Mongo's `.sort("year", -1)` on the
list of years. -/
def sortDesc : List ℤ → List ℤ
  | [] => []
  | x :: xs => insertDesc x (sortDesc xs)

/-- Python `max` over a nonempty list given as head and tail. -/
def pyMax (y : ℤ) (ys : List ℤ) : ℤ := ys.foldl max y

/-- Model of `DBSearchTool._find_section` of `tools/db_search.py` (lines 113–173):
exact `(table_code, year)` lookup; on a miss, collect the available years for
the code (sorted descending, limited to 5), fall back to their maximum, and
raise the no-table `ValueError` when there are none.  The `attrErr` branch
models the crash Python would hit if the fallback lookup returned `None`
(it cannot, as proved below). -/
def find_section (db : DB) (table_code : String) (year : ℤ := 2024) :
    Except PyErr TableData :=
  let lookup : Except PyErr Table :=
    match db.tables.find? (fun t => t.table_code == table_code && t.year == year) with
    | some t => .ok t
    | none =>
      let available_years :=
        (sortDesc ((db.tables.filter (fun t => t.table_code == table_code)).map
          (·.year))).take 5
      match available_years with
      | [] => .error (.noTable ("No table found in SCP reference for code " ++
          table_code ++ "."))
      | y :: ys =>
        let latest_year := pyMax y ys
        match db.tables.find? (fun t => t.table_code == table_code &&
            t.year == latest_year) with
        | some t => .ok t
        | none => .error .attrErr
  match lookup with
  | .error e => .error e
  | .ok result =>
    if result.positions.isEmpty then
      .error (.noPositions ("Table " ++ table_code ++ " has no configured positions."))
    else
      .ok { code := table_code, name_ru := result.name_ru, rows := result.positions,
            table := result }

/-- Model of `DBSearchTool._match_row_by_position` of `tools/db_search.py`
(lines 175–209): skip subtitle rows, exact match on the position number,
raise with the table code and requested number on a miss. -/
def match_row_by_position (table_data : TableData) (position_number : ℤ) :
    Except PyErr Row :=
  let rows := table_data.rows
  if rows.isEmpty then
    .error (.noPositions ("No positions found for table " ++ table_data.code ++ "."))
  else
    match rows.find? (fun r => !r.is_subtitle && r.position_number == some position_number) with
    | some r => .ok r
    | none => .error (.positionNotFound ("Position " ++ toString position_number ++
        " not found in table " ++ table_data.code ++ ". Check position number in Smeta."))

/-- Model of `DBSearchTool._condition_matches` of `tools/db_search.py` (lines 237–244),
in its dependency-free branch (`fuzzywuzzy` absent): any lowered tag is a
substring of the lowered condition text. -/
def condition_matches (condition : String) (lowered_tags : List String) : Bool :=
  lowered_tags.any fun tag => decide (tag.data <:+: condition.data)

/-- Model of `DBSearchTool._match_coefficients` of `tools/db_search.py`
(lines 211–235): filter the `coefficients` collection by applicability code,
skip entries with an empty condition, keep those matching any tag. -/
def match_coefficients (db : DB) (table_code : String)
    (extracted_tags : List String) : List MatchedCoeff :=
  if extracted_tags.isEmpty then []
  else
    let lowered_tags := extracted_tags.map pyLower
    (db.coefficients.filter (fun c => c.applies_to_codes.contains table_code)).filterMap
      fun coef =>
        let condition := pyLower (coef.condition_full.getD "")
        if condition.isEmpty then none
        else if condition_matches condition lowered_tags then
          some { id := coef.id, value := coef.coefficient_value.getD 1,
                 reason := coef.condition_full.getD "" }
        else none

/-- Model of `DBSearchTool._run` of `tools/db_search.py` (lines 49–107): resolve the
table (with year fallback), match the row by position number, gather fuzzy
coefficients, merge the row's stage coefficients (`k2` preferred; `k1` only
when `k2` is absent), and return the reference dict — always with
`formula_strategy = "standard"`, `range_min = 0.0` and `range_max = 999999.0`,
substituting `0.0` for a missing `param_a`/`param_b`. -/
def db_search_run (db : DB) (table_code_claimed : String) (position_number : ℤ)
    (x_claimed : ℚ) (year : ℤ := 2024) (extracted_tags : List String := []) :
    Except PyErr RefOut :=
  match find_section db table_code_claimed year with
  | .error e => .error e
  | .ok table_data =>
  match match_row_by_position table_data position_number with
  | .error e => .error e
  | .ok matching_row =>
  let coefficients := match_coefficients db table_code_claimed extracted_tags
  let param_a := matching_row.param_a
  let param_b := matching_row.param_b
  let k1 := matching_row.k1
  let k2 := matching_row.k2
  let stage2 : List MatchedCoeff :=
    match k2 with
    | some v => if v ≠ 1.0 then
        [{ id := "k2_stage", value := v, reason := "Коэффициент стадийности K2 (РП/РД)" }]
      else []
    | none => []
  let stage1 : List MatchedCoeff :=
    match k2, k1 with
    | none, some v => if v ≠ 1.0 then
        [{ id := "k1_stage", value := v, reason := "Коэффициент стадийности K1 (Проект)" }]
      else []
    | _, _ => []
  let all_coefficients := coefficients ++ stage2 ++ stage1
  .ok { ref_A := param_a.getD 0,
        ref_B := param_b.getD 0,
        range_min := 0,
        range_max := 999999,
        formula_strategy := "standard",
        valid_coefficients := all_coefficients,
        source_position_id := matching_row.position_id }

instance {ε α : Type _} [DecidableEq ε] [DecidableEq α] : DecidableEq (Except ε α) :=
  fun x y =>
    match x, y with
    | .ok a, .ok b =>
      if h : a = b then isTrue (by rw [h]) else isFalse (fun he => by cases he; exact h rfl)
    | .error a, .error b =>
      if h : a = b then isTrue (by rw [h]) else isFalse (fun he => by cases he; exact h rfl)
    | .ok _, .error _ => isFalse (fun he => by cases he)
    | .error _, .ok _ => isFalse (fun he => by cases he)

/-! ## Helper lemmas about the descending sort and the Python `max` -/

theorem mem_insertDesc {a x : ℤ} {l : List ℤ} :
    a ∈ insertDesc x l ↔ a = x ∨ a ∈ l := by
  induction l with
  | nil => simp [insertDesc]
  | cons y ys ih =>
    simp only [insertDesc]
    split
    · simp
    · simp only [List.mem_cons, ih]
      tauto

theorem mem_sortDesc {a : ℤ} {l : List ℤ} : a ∈ sortDesc l ↔ a ∈ l := by
  induction l with
  | nil => simp [sortDesc]
  | cons x xs ih => simp [sortDesc, mem_insertDesc, ih]

theorem pairwise_insertDesc {x : ℤ} {l : List ℤ}
    (h : l.Pairwise (fun a b => b ≤ a)) :
    (insertDesc x l).Pairwise (fun a b => b ≤ a) := by
  induction l with
  | nil => simp [insertDesc]
  | cons y ys ih =>
    rw [List.pairwise_cons] at h
    simp only [insertDesc]
    split
    · rename_i hyx
      refine List.Pairwise.cons ?_ (List.Pairwise.cons h.1 h.2)
      intro z hz
      rcases List.mem_cons.mp hz with rfl | hz
      · exact hyx
      · exact (h.1 z hz).trans hyx
    · rename_i hyx
      refine List.Pairwise.cons ?_ (ih h.2)
      intro z hz
      rcases mem_insertDesc.mp hz with rfl | hz
      · exact le_of_not_le hyx
      · exact h.1 z hz

theorem pairwise_sortDesc (l : List ℤ) :
    (sortDesc l).Pairwise (fun a b => b ≤ a) := by
  induction l with
  | nil => simp [sortDesc]
  | cons x xs ih => exact pairwise_insertDesc ih

theorem sortDesc_eq_nil {l : List ℤ} : sortDesc l = [] ↔ l = [] := by
  constructor
  · intro h
    cases l with
    | nil => rfl
    | cons x xs =>
      exfalso
      have : x ∈ sortDesc (x :: xs) := mem_sortDesc.mpr (List.mem_cons_self x xs)
      rw [h] at this
      exact List.not_mem_nil x this
  · rintro rfl
    rfl

theorem pyMax_eq {y : ℤ} {ys : List ℤ} (h : ∀ z ∈ ys, z ≤ y) : pyMax y ys = y := by
  induction ys generalizing y with
  | nil => rfl
  | cons z zs ih =>
    have hz : z ≤ y := h z (List.mem_cons_self z zs)
    have : max y z = y := max_eq_left hz
    simp only [pyMax, List.foldl_cons, this]
    exact ih fun w hw => h w (List.mem_cons_of_mem z hw)

/-- Every surviving coefficient value is at least `0.1`, hence positive. -/
theorem survivor_value_pos {dbCs claimCs : List CoefficientData} :
    ∀ c ∈ allSurvivors dbCs claimCs, 0 < cval c := by
  intro c hc
  rcases List.mem_append.mp hc with h | h
  · have := (List.mem_filter.mp h).2
    cases hv : c.value with
    | none => rw [hv] at this; simp at this
    | some v =>
      rw [hv] at this
      simp only [decide_eq_true_eq] at this
      have h01 : (0.1 : ℚ) ≤ v := this.1
      simp only [cval, hv, Option.getD_some]
      linarith
  · have := (List.mem_filter.mp h).2
    cases hv : c.value with
    | none => rw [hv] at this; simp at this
    | some v =>
      rw [hv] at this
      simp only [Bool.and_eq_true, decide_eq_true_eq] at this
      have h01 : (0.1 : ℚ) ≤ v := this.2.1
      simp only [cval, hv, Option.getD_some]
      linarith

/-- Evaluation helper: once the scaled rounding is known, a fixed-point
format reduces to the integer renderer. -/
theorem formatFixed2_round (x : ℚ) (n : ℤ) (h : round (x * (10 : ℚ) ^ 2) = n) :
    formatFixed2 x = formatFixedInt 2 n := by
  rw [formatFixed2, formatFixed, h]

/-- The `if … isEmpty …` special case of the combined multiplier collapses:
the multiplier is always the product over the survivor list. -/
theorem coeffProductAll_eq_prod (dbCs claimCs : List CoefficientData) :
    coeffProductAll dbCs claimCs = ((allSurvivors dbCs claimCs).map cval).prod := by
  rw [coeffProductAll]
  by_cases h : (allSurvivors dbCs claimCs).isEmpty
  · rw [if_pos h]
    rw [List.isEmpty_iff] at h
    rw [h]
    rfl
  · rw [if_neg h]

/-! ## Claims -/

/-- **C2.** For every resolved reference and quantity, `compute_base` returns
`A + B*q` under the `standard` strategy, `A + B*(0.4*range_max + 0.6*q)` under
the extrapolate-above strategy (string `"extrapolation_above"` in the code),
`A + B*(0.6*range_min + 0.4*q)` under the extrapolate-below strategy (string
`"extrapolation_below"`), and raises the unknown-strategy error for any other
strategy value. -/
theorem claim_C2_compute_base_cases (r : ReferenceData) (x : ℚ) :
    (r.formula_strategy = "standard" →
      compute_base r x = .ok (r.ref_A + r.ref_B * x)) ∧
    (r.formula_strategy = "extrapolation_above" →
      compute_base r x = .ok (r.ref_A + r.ref_B * (0.4 * r.range_max + 0.6 * x))) ∧
    (r.formula_strategy = "extrapolation_below" →
      compute_base r x = .ok (r.ref_A + r.ref_B * (0.6 * r.range_min + 0.4 * x))) ∧
    (r.formula_strategy ≠ "standard" → r.formula_strategy ≠ "extrapolation_above" →
      r.formula_strategy ≠ "extrapolation_below" →
      compute_base r x = .error (.unknownStrategy
        ("Unknown formula strategy '" ++ r.formula_strategy ++ "'."))) := by
  refine ⟨?_, ?_, ?_, ?_⟩
  · intro h; simp [compute_base, h]
  · intro h; simp [compute_base, h]
  · intro h; simp [compute_base, h]
  · intro h1 h2 h3; simp [compute_base, h1, h2, h3]

/-- Witness for C2: the four branches evaluated on concrete references. -/
theorem claim_C2_witness :
    compute_base { ref_A := 1, ref_B := 2, range_min := 3, range_max := 4 } 10 =
      .ok (1 + 2 * 10) ∧
    compute_base { ref_A := 1, ref_B := 2, range_min := 3, range_max := 4,
                   formula_strategy := "extrapolation_above" } 10 =
      .ok (1 + 2 * (0.4 * 4 + 0.6 * 10)) ∧
    compute_base { ref_A := 1, ref_B := 2, range_min := 3, range_max := 4,
                   formula_strategy := "extrapolation_below" } 10 =
      .ok (1 + 2 * (0.6 * 3 + 0.4 * 10)) ∧
    compute_base { ref_A := 1, ref_B := 2, range_min := 3, range_max := 4,
                   formula_strategy := "mystery" } 10 =
      .error (.unknownStrategy "Unknown formula strategy 'mystery'.") :=
  ⟨(claim_C2_compute_base_cases _ 10).1 rfl,
   (claim_C2_compute_base_cases _ 10).2.1 rfl,
   (claim_C2_compute_base_cases _ 10).2.2.1 rfl,
   (claim_C2_compute_base_cases _ 10).2.2.2 (by decide) (by decide) (by decide)⟩

/-- **C8.** At the upper range boundary the extrapolate-above formula and the
standard formula agree exactly: for `q = range_max`,
`A + B*(0.4*range_max + 0.6*q) = A + B*range_max`, so the base cost is
continuous at the boundary between the in-range and above-range regimes. -/
theorem claim_C8_extrapolation_continuous_at_max (r : ReferenceData) :
    compute_base { r with formula_strategy := "extrapolation_above" } r.range_max =
      compute_base { r with formula_strategy := "standard" } r.range_max := by
  show Except.ok (r.ref_A + r.ref_B * (0.4 * r.range_max + 0.6 * r.range_max)) =
    Except.ok (r.ref_A + r.ref_B * r.range_max)
  congr 1
  ring

/-- Spec comparison definition for C3 — the product exactly as the claim
words it: every coefficient from either side whose value is present and lies
in `[0.1, 10.0]`, with no other exclusion. -/
def presentInRangeProductClaimC3 (dbCs claimCs : List CoefficientData) : ℚ :=
  (((dbCs ++ claimCs).filterMap (fun c => c.value)).filter
    (fun v => decide (0.1 ≤ v ∧ v ≤ 10.0))).prod

/-- **C3, counterexample.** A claim-side coefficient with identifier `K1` and
the in-range value `2` is present and in `[0.1, 10.0]`, so the claim's
"product of exactly those coefficients" is `2`; but the code's combined
multiplier drops it (stage-alias exclusion) and returns `1`. -/
theorem claim_C3_counterexample :
    coeffProductAll [] [{ id := some "K1", value := some 2, reason := none }] = 1 ∧
    presentInRangeProductClaimC3 [] [{ id := some "K1", value := some 2, reason := none }] = 2 ∧
    (1 : ℚ) ≠ 2 := by
  have hstage : isStageAliasId (some "K1") = true := by decide
  refine ⟨?_, ?_, by norm_num⟩
  · norm_num [coeffProductAll, allSurvivors, dbSideSurvivors, claimSideSurvivors, hstage]
  · norm_num [presentInRangeProductClaimC3, List.filterMap_cons, List.filter_cons]

/-- A surviving-value filter is unchanged when an element failing the
predicate is removed from the middle of the list. -/
theorem filter_middle_false {α : Type _} (p : α → Bool) (pre suf : List α)
    (c : α) (h : p c = false) :
    (pre ++ c :: suf).filter p = (pre ++ suf).filter p := by
  simp [List.filter_append, List.filter_cons, h]

/-- **C3, amended.** The combined multiplier is the product of exactly those
coefficients whose value is present, lies in `[0.1, 10.0]`, and — on the
claim side — whose identifier is not a stage-1/2 alias; out-of-bounds or
missing values are dropped, never zeroed or clamped; when no coefficient
survives the multiplier is exactly `1.0`; and the multiplier is always
strictly positive, never `0`. -/
theorem claim_C3_amended_survivor_product (dbCs claimCs : List CoefficientData) :
    coeffProductAll dbCs claimCs =
      ((dbCs.filter (fun c => c.value.any fun v => decide (0.1 ≤ v ∧ v ≤ 10.0)) ++
        claimCs.filter (fun c => !isStageAliasId c.id &&
          c.value.any fun v => decide (0.1 ≤ v ∧ v ≤ 10.0))).map cval).prod ∧
    (allSurvivors dbCs claimCs = [] → coeffProductAll dbCs claimCs = 1) ∧
    0 < coeffProductAll dbCs claimCs := by
  have hdb : dbSideSurvivors dbCs =
      dbCs.filter (fun c => c.value.any fun v => decide (0.1 ≤ v ∧ v ≤ 10.0)) := by
    apply List.filter_congr
    intro c _
    cases hv : c.value <;> simp [hv, Option.any]
  have hcl : claimSideSurvivors claimCs =
      claimCs.filter (fun c => !isStageAliasId c.id &&
        c.value.any fun v => decide (0.1 ≤ v ∧ v ≤ 10.0)) := by
    apply List.filter_congr
    intro c _
    cases hv : c.value <;> simp [hv, Option.any]
  refine ⟨?_, ?_, ?_⟩
  · rw [coeffProductAll_eq_prod, allSurvivors, hdb, hcl]
  · intro h
    rw [coeffProductAll_eq_prod, h]
    rfl
  · rw [coeffProductAll_eq_prod]
    apply List.prod_pos
    intro a ha
    rcases List.mem_map.mp ha with ⟨c, hc, rfl⟩
    exact survivor_value_pos c hc

/-- Witness for the amended C3: with no coefficients at all, the multiplier
is exactly `1` and still positive. -/
theorem claim_C3_witness :
    coeffProductAll [] [] = 1 ∧ 0 < coeffProductAll [] [] :=
  ⟨(claim_C3_amended_survivor_product [] []).2.1 rfl,
   (claim_C3_amended_survivor_product [] []).2.2⟩

/-- **C4.** A claim-side coefficient whose identifier denotes stage slot 1 or
2 — matched case-insensitively in both Latin (`K1`, `K2`) and Cyrillic
(`К1`, `К2`) forms — is excluded from both the claim-side survivor set and
the combined coefficient product, so a resolver-supplied stage coefficient is
never multiplied in twice. -/
theorem claim_C4_stage_alias_excluded (dbCs pre suf : List CoefficientData)
    (c : CoefficientData) (h : isStageAliasId c.id = true) :
    claimSideSurvivors (pre ++ c :: suf) = claimSideSurvivors (pre ++ suf) ∧
    coeffProductAll dbCs (pre ++ c :: suf) = coeffProductAll dbCs (pre ++ suf) := by
  have hpred : (fun c : CoefficientData => match c.value with
      | some v => !isStageAliasId c.id && decide (0.1 ≤ v ∧ v ≤ 10.0)
      | none => false) c = false := by
    cases hv : c.value <;> simp [hv, h]
  have hfil : claimSideSurvivors (pre ++ c :: suf) = claimSideSurvivors (pre ++ suf) :=
    filter_middle_false _ pre suf c hpred
  exact ⟨hfil, by simp only [coeffProductAll, allSurvivors, hfil]⟩

/-- Witness for C4: a lowercase Latin `k1` and a lowercase Cyrillic `к2`
claim-side coefficient (both with in-range values) leave the product
unchanged. -/
theorem claim_C4_witness :
    coeffProductAll [] [{ id := some "k1", value := some 2, reason := none },
        { id := none, value := some 3, reason := none }] =
      coeffProductAll [] [{ id := none, value := some 3, reason := none }] ∧
    coeffProductAll [] [{ id := some "к2", value := some 5, reason := none },
        { id := none, value := some 3, reason := none }] =
      coeffProductAll [] [{ id := none, value := some 3, reason := none }] :=
  ⟨(claim_C4_stage_alias_excluded [] []
      [{ id := none, value := some 3, reason := none }]
      { id := some "k1", value := some 2, reason := none } (by decide)).2,
   (claim_C4_stage_alias_excluded [] []
      [{ id := none, value := some 3, reason := none }]
      { id := some "к2", value := some 5, reason := none } (by decide)).2⟩

/-- **C10.** Whenever the claimed total is zero or negative, the computed
deviation percent is `0` (observable in the verdict's reason string) and the
verdict is approved, regardless of how far the calculated total is from the
claim. -/
theorem claim_C10_nonpositive_claim_auto_approved (st : RowState) (ri : RawInput)
    (rd : ReferenceData) (st' : RowState)
    (hri : st.raw_input = some ri) (hrd : st.reference_data = some rd)
    (hle : ri.total_claimed ≤ 0)
    (hrun : run_deterministic_calculator st = .ok st') :
    st'.audit_verdict.is_approved = true ∧
    st'.audit_verdict.reason = some "Match within 0.00% tolerance" := by
  have hnotbig : ¬ ri.total_claimed > 1000000 := by linarith
  have hnotpos : ¬ ri.total_claimed > 0 := by linarith
  have h0 : formatFixed2 0 = "0.00" := by
    rw [formatFixed2_round 0 0 (by norm_num [round_eq])]
    decide
  cases hcb : compute_base rd ri.X_claimed with
  | error e =>
    rw [run_deterministic_calculator, hri, hrd] at hrun
    simp only [hcb] at hrun
    exact Except.noConfusion hrun
  | ok base =>
    rw [run_deterministic_calculator, hri, hrd] at hrun
    simp only [hcb, if_neg hnotbig, if_neg hnotpos] at hrun
    injection hrun with h
    subst h
    have hd : (decide ((0 : ℚ) ≤ 5.0)) = true := by norm_num
    refine ⟨?_, ?_⟩
    · show decide ((0 : ℚ) ≤ 5.0) = true
      exact hd
    · show some (if decide ((0:ℚ) ≤ 5.0) = true
          then "Match within " ++ formatFixed2 0 ++ "% tolerance" else _) = _
      rw [hd, if_pos rfl, h0]
      rfl

/-- The unit-normalised claimed cost (`core/calculator.py` lines 257–259):
above one million the value is taken to be base units and divided by 1000. -/
def normalizedClaim (claimed : ℚ) : ℚ :=
  if claimed > 1000000 then claimed / 1000 else claimed

/-- The deviation percent as the code computes it (`core/calculator.py`
lines 262–263): the relative deviation when the normalised claim is strictly
positive, and `0` otherwise (for zero *and negative* claims). -/
def codeDeviationPercent (calculated normalized : ℚ) : ℚ :=
  if normalized > 0 then |calculated - normalized| / normalized * 100 else 0

/-- Spec comparison definition for C1 — the deviation percent exactly as the
claim words it: `|calculated - normalized| / normalized * 100`, with only the
zero-claim convention. -/
def deviationPercentClaimC1 (calculated normalized : ℚ) : ℚ :=
  if normalized = 0 then 0 else |calculated - normalized| / normalized * 100

/-- Raw input of the C1 counterexample: a negative claimed total. -/
def riC1neg : RawInput :=
  { text_description := "", table_code_claimed := "T", position_number := 1,
    X_claimed := 1, total_claimed := -100 }

/-- Reference data of the C1 counterexample: base cost `50`. -/
def rdC1neg : ReferenceData :=
  { ref_A := 50, ref_B := 0, range_min := 0, range_max := 100 }

/-- State of the C1 counterexample. -/
def stC1neg : RowState :=
  { id := "c1", raw_input := some riC1neg, reference_data := some rdC1neg }

/-- The verdict the code produces on `stC1neg`. -/
def stC1negOut : RowState :=
  { id := "c1", raw_input := some riC1neg, reference_data := some rdC1neg,
    audit_verdict :=
      { calculated_total := some 50, is_approved := true,
        reason := some "Match within 0.00% tolerance",
        discrepancies := [],
        calculation_breakdown := some
          { base_cost := some 50, coefficients_applied := [],
            final_cost := some 50,
            formula_used := some "(50.00 + 0.00 × 1.00) = 50.00 тыс.тг" } } }

/-- **C1, counterexample.**  With a claimed total of `-100` and a calculated
total of `50`, the code's deviation percent is `0` (the reason string reads
`0.00%` and the claim is approved), whereas the claim's formula
`|calculated - normalized| / normalized * 100` yields `-150 ≠ 0`.  The claim's
description of the deviation percent is therefore false for negative claimed
costs. -/
theorem claim_C1_counterexample :
    run_deterministic_calculator stC1neg = .ok stC1negOut ∧
    stC1negOut.audit_verdict.reason = some "Match within 0.00% tolerance" ∧
    stC1negOut.audit_verdict.is_approved = true ∧
    deviationPercentClaimC1 50 (-100) = -150 ∧ ((-150 : ℚ) ≠ 0) := by
  refine ⟨?_, rfl, rfl, ?_, by norm_num⟩
  · norm_num [run_deterministic_calculator, stC1neg, riC1neg, rdC1neg, stC1negOut,
      compute_base, allSurvivors, dbSideSurvivors, claimSideSurvivors,
      coeffProductAll, cval, detect_discrepancies, build_calculation_breakdown,
      round2, round_eq, formatFixed2, formatFixed, formatFixedInt]
    decide
  · norm_num [deviationPercentClaimC1]

/-- **C1, amended.**  For every successful audit run: the claimed cost is
normalised before comparison (divided by 1000 iff above 1,000,000); the
deviation percent is `|calculated - normalized| / normalized * 100` when the
normalised claim is strictly positive, with a claimed cost of zero *or below*
yielding 0% by convention (never a division fault); and the verdict's
`is_approved` is true iff that deviation percent is `≤ 5.0`. -/
theorem claim_C1_amended_deviation_and_threshold (st : RowState) (ri : RawInput)
    (rd : ReferenceData) (b : ℚ) (st' : RowState)
    (hri : st.raw_input = some ri) (hrd : st.reference_data = some rd)
    (hbase : compute_base rd ri.X_claimed = .ok b)
    (hrun : run_deterministic_calculator st = .ok st') :
    st'.audit_verdict.calculated_total =
      some (round2 (b * coeffProductAll rd.valid_coefficients ri.claimed_coefficients)) ∧
    (st'.audit_verdict.is_approved = true ↔
      codeDeviationPercent
        (b * coeffProductAll rd.valid_coefficients ri.claimed_coefficients)
        (normalizedClaim ri.total_claimed) ≤ 5.0) := by
  rw [run_deterministic_calculator, hri, hrd] at hrun
  simp only [hbase] at hrun
  injection hrun with h
  subst h
  exact ⟨rfl, decide_eq_true_iff⟩

/-- Raw input of the C1 witness: a positive claimed total. -/
def riC1w : RawInput :=
  { text_description := "", table_code_claimed := "T", position_number := 1,
    X_claimed := 1, total_claimed := 5 }

/-- Reference data of the C1 witness. -/
def rdC1w : ReferenceData :=
  { ref_A := 2, ref_B := 3, range_min := 0, range_max := 100 }

/-- State of the C1 witness. -/
def stC1w : RowState :=
  { id := "w1", raw_input := some riC1w, reference_data := some rdC1w }

/-- The verdict the code produces on `stC1w`. -/
def stC1wOut : RowState :=
  { id := "w1", raw_input := some riC1w, reference_data := some rdC1w,
    audit_verdict :=
      { calculated_total := some 5, is_approved := true,
        reason := some "Match within 0.00% tolerance",
        discrepancies := [],
        calculation_breakdown := some
          { base_cost := some 5, coefficients_applied := [],
            final_cost := some 5,
            formula_used := some "(2.00 + 3.00 × 1.00) = 5.00 тыс.тг" } } }

/-- Witness for the amended C1, at a concrete positive-claim state. -/
theorem claim_C1_witness :
    stC1wOut.audit_verdict.calculated_total =
      some (round2 (5 * coeffProductAll [] [])) ∧
    (stC1wOut.audit_verdict.is_approved = true ↔
      codeDeviationPercent (5 * coeffProductAll [] []) (normalizedClaim 5) ≤ 5.0) :=
  claim_C1_amended_deviation_and_threshold stC1w riC1w rdC1w 5 stC1wOut rfl rfl
    (by norm_num [compute_base, riC1w, rdC1w])
    (by
      norm_num [run_deterministic_calculator, stC1w, riC1w, rdC1w, stC1wOut,
        compute_base, allSurvivors, dbSideSurvivors, claimSideSurvivors,
        coeffProductAll, cval, detect_discrepancies, build_calculation_breakdown,
        round2, round_eq, formatFixed2, formatFixed, formatFixedInt]
      decide)

/-- Raw input of the C10 witness: a strictly negative claimed total. -/
def riC10 : RawInput :=
  { text_description := "", table_code_claimed := "T", position_number := 1,
    X_claimed := 1, total_claimed := -7 }

/-- Reference data of the C10 witness. -/
def rdC10 : ReferenceData :=
  { ref_A := 4, ref_B := 1, range_min := 0, range_max := 100 }

/-- State of the C10 witness. -/
def stC10 : RowState :=
  { id := "w10", raw_input := some riC10, reference_data := some rdC10 }

/-- The verdict the code produces on `stC10`. -/
def stC10Out : RowState :=
  { id := "w10", raw_input := some riC10, reference_data := some rdC10,
    audit_verdict :=
      { calculated_total := some 5, is_approved := true,
        reason := some "Match within 0.00% tolerance",
        discrepancies := [],
        calculation_breakdown := some
          { base_cost := some 5, coefficients_applied := [],
            final_cost := some 5,
            formula_used := some "(4.00 + 1.00 × 1.00) = 5.00 тыс.тг" } } }

/-- Witness for C10, at a concrete state claiming `-7`. -/
theorem claim_C10_witness :
    stC10Out.audit_verdict.is_approved = true ∧
    stC10Out.audit_verdict.reason = some "Match within 0.00% tolerance" :=
  claim_C10_nonpositive_claim_auto_approved stC10 riC10 rdC10 stC10Out rfl rfl
    (by norm_num [riC10])
    (by
      norm_num [run_deterministic_calculator, stC10, riC10, rdC10, stC10Out,
        compute_base, allSurvivors, dbSideSurvivors, claimSideSurvivors,
        coeffProductAll, cval, detect_discrepancies, build_calculation_breakdown,
        round2, round_eq, formatFixed2, formatFixed, formatFixedInt]
      decide)

/-- **C7.** In position-number mode, resolution skips every subtitle row and
matches the requested position number exactly (a returned row is a
non-subtitle row carrying exactly that number); and when no non-subtitle row
carries the number (the table having a nonempty position list, which
`find_section` guarantees), it raises the position-not-found error whose
message contains both the table code and the requested number. -/
theorem claim_C7_position_number_mode (td : TableData) (pn : ℤ)
    (hrows : td.rows ≠ []) :
    (∀ r, match_row_by_position td pn = .ok r →
      r ∈ td.rows ∧ r.is_subtitle = false ∧ r.position_number = some pn) ∧
    ((∀ r ∈ td.rows, r.is_subtitle = true ∨ r.position_number ≠ some pn) →
      match_row_by_position td pn = .error (.positionNotFound
        ("Position " ++ toString pn ++ " not found in table " ++ td.code ++
          ". Check position number in Smeta.")) ∧
      td.code.data <:+: ("Position " ++ toString pn ++ " not found in table " ++
        td.code ++ ". Check position number in Smeta.").data ∧
      (toString pn).data <:+: ("Position " ++ toString pn ++ " not found in table " ++
        td.code ++ ". Check position number in Smeta.").data) := by
  have hne : td.rows.isEmpty = false := by
    cases h : td.rows with
    | nil => exact absurd h hrows
    | cons a l => rfl
  constructor
  · intro r hok
    rw [match_row_by_position] at hok
    rw [hne] at hok
    simp only [Bool.false_eq_true, if_false] at hok
    cases hfind : td.rows.find?
        (fun r => !r.is_subtitle && r.position_number == some pn) with
    | none => rw [hfind] at hok; exact Except.noConfusion hok
    | some r' =>
      rw [hfind] at hok
      injection hok with h
      subst h
      have hp := List.find?_some hfind
      rw [Bool.and_eq_true] at hp
      refine ⟨List.mem_of_find?_eq_some hfind, ?_, ?_⟩
      · have := hp.1
        rwa [Bool.not_eq_true'] at this
      · exact beq_iff_eq.mp hp.2
  · intro hall
    have hfind : td.rows.find?
        (fun r => !r.is_subtitle && r.position_number == some pn) = none := by
      rw [List.find?_eq_none]
      intro r hr
      rcases hall r hr with h | h
      · simp [h]
      · simp [h]
    refine ⟨?_, ?_, ?_⟩
    · rw [match_row_by_position, hne]
      simp only [Bool.false_eq_true, if_false, hfind]
    · refine ⟨("Position " ++ toString pn ++ " not found in table ").data,
        (". Check position number in Smeta.").data, ?_⟩
      simp only [String.data_append, List.append_assoc]
    · refine ⟨("Position ").data,
        (" not found in table " ++ td.code ++ ". Check position number in Smeta.").data, ?_⟩
      simp only [String.data_append, List.append_assoc]

/-- Table data of the C7 witness: two rows, one subtitle, neither carrying
position number 99. -/
def tdC7 : TableData :=
  { code := "T-7", name_ru := none,
    rows := [{ position_number := some 1 }, { position_number := some 2, is_subtitle := true }],
    table := { table_code := "T-7", year := 2023 } }

/-- Witness for C7: requesting position 99 in `tdC7` raises the
position-not-found error containing the table code and the number. -/
theorem claim_C7_witness :
    match_row_by_position tdC7 99 = .error (.positionNotFound
      ("Position " ++ toString (99 : ℤ) ++ " not found in table " ++ tdC7.code ++
        ". Check position number in Smeta.")) ∧
    tdC7.code.data <:+: ("Position " ++ toString (99 : ℤ) ++ " not found in table " ++
      tdC7.code ++ ". Check position number in Smeta.").data ∧
    (toString (99 : ℤ)).data <:+: ("Position " ++ toString (99 : ℤ) ++
      " not found in table " ++ tdC7.code ++ ". Check position number in Smeta.").data :=
  (claim_C7_position_number_mode tdC7 99 (by decide)).2 (by decide)

/-- **C6.** The table lookup fails with the no-table error (the spec's
`NotFoundError`) iff no reference table exists for the code in any year; and
when the exact `(code, year)` pair is absent but the code exists, every
successful resolution uses a stored table for that code whose year is the
maximum over all years available for the code. -/
theorem claim_C6_year_fallback (db : DB) (tc : String) (yr : ℤ) :
    (find_section db tc yr = .error (.noTable
        ("No table found in SCP reference for code " ++ tc ++ ".")) ↔
      db.tables.filter (fun t => t.table_code == tc) = []) ∧
    (db.tables.find? (fun t => t.table_code == tc && t.year == yr) = none →
      ∀ td, find_section db tc yr = .ok td →
        td.table ∈ db.tables ∧ td.table.table_code = tc ∧
        ∀ t ∈ db.tables, t.table_code = tc → t.year ≤ td.table.year) := by
  cases hf : db.tables.find? (fun t => t.table_code == tc && t.year == yr) with
  | some t =>
    constructor
    · constructor
      · intro herr
        exfalso
        rw [find_section] at herr
        simp only [hf] at herr
        split at herr <;> simp at herr
      · intro hemp
        exfalso
        have hmem := List.mem_of_find?_eq_some hf
        have hp := List.find?_some hf
        rw [Bool.and_eq_true] at hp
        have hin : t ∈ db.tables.filter (fun t => t.table_code == tc) :=
          List.mem_filter.mpr ⟨hmem, hp.1⟩
        rw [hemp] at hin
        exact List.not_mem_nil t hin
    · intro hnone
      exact Option.noConfusion hnone
  | none =>
    cases hsd : sortDesc ((db.tables.filter (fun t => t.table_code == tc)).map (·.year)) with
    | nil =>
      have hfil : db.tables.filter (fun t => t.table_code == tc) = [] := by
        have hmapnil := sortDesc_eq_nil.mp hsd
        exact List.map_eq_nil_iff.mp hmapnil
      constructor
      · constructor
        · intro _
          exact hfil
        · intro _
          rw [find_section]
          simp only [hf, hsd, List.take_nil]
      · intro _ td hok
        exfalso
        rw [find_section] at hok
        simp only [hf, hsd, List.take_nil] at hok
        exact Except.noConfusion hok
    | cons y rest =>
      have hpar := pairwise_sortDesc ((db.tables.filter (fun t => t.table_code == tc)).map (·.year))
      rw [hsd, List.pairwise_cons] at hpar
      have htake : (y :: rest).take 5 = y :: rest.take 4 := rfl
      have hlat : pyMax y (rest.take 4) = y :=
        pyMax_eq fun z hz => hpar.1 z (List.mem_of_mem_take hz)
      have hymem : y ∈ (db.tables.filter (fun t => t.table_code == tc)).map (·.year) := by
        rw [← mem_sortDesc, hsd]
        exact List.mem_cons_self y rest
      rcases List.mem_map.mp hymem with ⟨t0, ht0f, ht0y⟩
      have ht0 := List.mem_filter.mp ht0f
      cases hf2 : db.tables.find? (fun t => t.table_code == tc && t.year == y) with
      | none =>
        exfalso
        rw [List.find?_eq_none] at hf2
        refine hf2 t0 ht0.1 ?_
        rw [Bool.and_eq_true]
        exact ⟨ht0.2, by rw [beq_iff_eq]; exact ht0y⟩
      | some t1 =>
        have ht1mem := List.mem_of_find?_eq_some hf2
        have ht1p := List.find?_some hf2
        rw [Bool.and_eq_true] at ht1p
        have ht1c : t1.table_code = tc := beq_iff_eq.mp ht1p.1
        have ht1y : t1.year = y := beq_iff_eq.mp ht1p.2
        constructor
        · constructor
          · intro herr
            exfalso
            rw [find_section] at herr
            simp only [hf, hsd, htake, hlat, hf2] at herr
            split at herr <;> simp at herr
          · intro hemp
            exfalso
            rw [hemp] at ht0f
            exact List.not_mem_nil t0 ht0f
        · intro _ td hok
          rw [find_section] at hok
          simp only [hf, hsd, htake, hlat, hf2] at hok
          split at hok
          · exact absurd hok (by simp)
          · injection hok with h
            subst h
            refine ⟨ht1mem, ht1c, ?_⟩
            intro t ht htc
            show t.year ≤ t1.year
            rw [ht1y]
            have hyin : t.year ∈ (db.tables.filter (fun t => t.table_code == tc)).map (·.year) :=
              List.mem_map.mpr ⟨t, List.mem_filter.mpr ⟨ht, by rw [beq_iff_eq]; exact htc⟩, rfl⟩
            have hyin2 := mem_sortDesc.mpr hyin
            rw [hsd] at hyin2
            rcases List.mem_cons.mp hyin2 with h | h
            · exact le_of_eq h
            · exact hpar.1 _ h

/-- Reference store of the C6 witness: code `A` is stored for years 2021 and
2023 (in that order), nothing else. -/
def dbC6 : DB :=
  { tables := [
      { table_code := "A", year := 2021, positions := [{}] },
      { table_code := "A", year := 2023, positions := [{}] }] }

/-- The table data the lookup resolves for code `A` when year 2025 is
requested: the 2023 edition (maximum available year). -/
def tdC6 : TableData :=
  { code := "A", name_ru := none, rows := [{}],
    table := { table_code := "A", year := 2023, positions := [{}] } }

/-- Witness for C6: an unknown code fails with the no-table error, and a
known code with an absent year falls back to the maximum available year. -/
theorem claim_C6_witness :
    find_section dbC6 "Z" 2024 = .error (.noTable
      ("No table found in SCP reference for code " ++ "Z" ++ ".")) ∧
    (tdC6.table ∈ dbC6.tables ∧ tdC6.table.table_code = "A" ∧
      ∀ t ∈ dbC6.tables, t.table_code = "A" → t.year ≤ tdC6.table.year) :=
  ⟨(claim_C6_year_fallback dbC6 "Z" 2024).1.mpr (by decide),
   (claim_C6_year_fallback dbC6 "A" 2025).2 (by decide) tdC6 (by decide)⟩

/-- Reference store of the C5 counterexample: one table, one position. -/
def dbC5 : DB :=
  { tables := [
      { table_code := "T-5", year := 2024,
        positions := [{ position_number := some 1 }] }] }

/-- **C5, counterexample.**  The resolver has no range mode: a position
number is always required, and even when the claimed quantity (`1000000`)
exceeds the only range bound the resolver ever reports (`range_max =
999999`), the resolution still returns `formula_strategy = "standard"`, not
the extrapolate-above strategy the claim demands. -/
theorem claim_C5_counterexample :
    (db_search_run dbC5 "T-5" 1 1000000 2024 []).map (·.formula_strategy) =
      .ok "standard" ∧
    (1000000 : ℚ) > 999999 ∧
    "standard" ≠ "extrapolation_above" := by
  refine ⟨by decide, by norm_num, by decide⟩

/-- **C5, amended.**  The resolver always resolves by position number and
every successful resolution returns `formula_strategy = "standard"` with
`range_min = 0` and `range_max = 999999`, regardless of the claimed quantity;
the `value_out_of_range` discrepancy with severity `warning` is emitted
instead by the discrepancy analysis of the audit whenever the claimed
quantity falls outside the matched reference range. -/
theorem claim_C5_amended_always_standard (db : DB) (tc : String) (pn : ℤ)
    (x : ℚ) (yr : ℤ) (tags : List String) (r : RefOut)
    (ri : RawInput) (rd : ReferenceData) (base calcT cit dp : ℚ)
    (cs : List CoefficientData) :
    (db_search_run db tc pn x yr tags = .ok r →
      r.formula_strategy = "standard" ∧ r.range_min = 0 ∧ r.range_max = 999999) ∧
    (ri.X_claimed < rd.range_min ∨ ri.X_claimed > rd.range_max →
      ∃ d ∈ detect_discrepancies ri rd base calcT cit cs dp,
        d.type = "value_out_of_range" ∧ d.severity = "warning") := by
  constructor
  · intro hok
    rw [db_search_run] at hok
    cases h1 : find_section db tc yr with
    | error e =>
      simp only [h1] at hok
      exact Except.noConfusion hok
    | ok td =>
      cases h2 : match_row_by_position td pn with
      | error e =>
        simp only [h1, h2] at hok
        exact Except.noConfusion hok
      | ok row =>
        simp only [h1, h2] at hok
        injection hok with h
        subst h
        exact ⟨rfl, rfl, rfl⟩
  · intro hout
    refine ⟨{ type := "value_out_of_range", severity := "warning",
              message := "Количественный показатель X=" ++ formatFixed2 ri.X_claimed ++
                " выходит за пределы нормативного диапазона [" ++
                formatFixed2 rd.range_min ++ ", " ++ formatFixed2 rd.range_max ++ "].",
              details := some [("X_claimed", .Q ri.X_claimed),
                ("range_min", .Q rd.range_min), ("range_max", .Q rd.range_max),
                ("extrapolation_used", .S rd.formula_strategy)] }, ?_, rfl, rfl⟩
    rw [detect_discrepancies]
    rw [if_pos hout]
    simp [List.mem_append]

/-- The reference dict resolved from `dbC5` for position 1. -/
def rC5out : RefOut :=
  { ref_A := 0, ref_B := 0, range_min := 0, range_max := 999999,
    formula_strategy := "standard", valid_coefficients := [],
    source_position_id := none }

/-- Raw input of the C5 witness discrepancy part. -/
def riC5 : RawInput :=
  { text_description := "", table_code_claimed := "T-5", position_number := 1,
    X_claimed := 5, total_claimed := 1 }

/-- Reference data of the C5 witness discrepancy part: range `[0, 4]`, so
`X_claimed = 5` is out of range. -/
def rdC5 : ReferenceData :=
  { ref_A := 0, ref_B := 0, range_min := 0, range_max := 4 }

/-- Witness for the amended C5: a concrete resolution returns the `standard`
strategy and the fixed range, and a concrete out-of-range quantity yields
the `value_out_of_range` warning discrepancy. -/
theorem claim_C5_witness :
    (rC5out.formula_strategy = "standard" ∧ rC5out.range_min = 0 ∧
      rC5out.range_max = 999999) ∧
    ∃ d ∈ detect_discrepancies riC5 rdC5 0 0 1 [] 0,
      d.type = "value_out_of_range" ∧ d.severity = "warning" :=
  ⟨(claim_C5_amended_always_standard dbC5 "T-5" 1 5 2024 [] rC5out
      riC5 rdC5 0 0 1 0 []).1 (by decide),
   (claim_C5_amended_always_standard dbC5 "T-5" 1 5 2024 [] rC5out
      riC5 rdC5 0 0 1 0 []).2 (by norm_num [riC5, rdC5])⟩

/-- Reference store of the C9 counterexample: the matched position lacks
`param_a`. -/
def dbC9 : DB :=
  { tables := [
      { table_code := "T-9", year := 2024,
        positions := [{ position_number := some 1, param_b := some 5,
                        position_id := some "p1" }] }] }

/-- Raw input continuing the C9 counterexample audit. -/
def riC9 : RawInput :=
  { text_description := "", table_code_claimed := "T-9", position_number := 1,
    X_claimed := 2, total_claimed := 10 }

/-- The reference data the resolver hands the calculator in the C9
counterexample (`param_a` defaulted to 0). -/
def rdC9 : ReferenceData :=
  { ref_A := 0, ref_B := 5, range_min := 0, range_max := 999999,
    formula_strategy := "standard", valid_coefficients := [],
    source_position_id := some "p1" }

/-- State continuing the C9 counterexample audit. -/
def stC9 : RowState :=
  { id := "c9", raw_input := some riC9, reference_data := some rdC9 }

/-- The verdict the code produces on `stC9`: the audit completes. -/
def stC9Out : RowState :=
  { id := "c9", raw_input := some riC9, reference_data := some rdC9,
    audit_verdict :=
      { calculated_total := some 10, is_approved := true,
        reason := some "Match within 0.00% tolerance",
        discrepancies := [],
        calculation_breakdown := some
          { base_cost := some 10, coefficients_applied := [],
            final_cost := some 10,
            formula_used := some "(0.00 + 5.00 × 2.00) = 10.00 тыс.тг" } } }

/-- **C9, counterexample.**  When the matched position lacks `param_a`, the
resolution does *not* fail: it returns a reference dict with `ref_A = 0`, and
the subsequent deterministic audit runs to completion (producing a verdict),
contradicting the claim that the audit aborts with a missing-input error
before any computation. -/
theorem claim_C9_counterexample :
    (db_search_run dbC9 "T-9" 1 2 2024 []).map (·.ref_A) = .ok 0 ∧
    run_deterministic_calculator stC9 = .ok stC9Out := by
  constructor
  · decide
  · norm_num [run_deterministic_calculator, stC9, riC9, rdC9, stC9Out,
      compute_base, allSurvivors, dbSideSurvivors, claimSideSurvivors,
      coeffProductAll, cval, detect_discrepancies, build_calculation_breakdown,
      pySplit, splitOnCharAux,
      round2, round_eq, formatFixed2, formatFixed, formatFixedInt]
    decide

/-- **C9, amended.**  When the matched reference position lacks `param_a` or
`param_b`, the resolver logs a warning and substitutes `0.0` for the missing
constant; resolution succeeds and the audit proceeds with the defaulted
constants instead of aborting. -/
theorem claim_C9_amended_missing_constants_defaulted (db : DB) (tc : String)
    (pn : ℤ) (x : ℚ) (yr : ℤ) (tags : List String) (td : TableData) (row : Row)
    (hfs : find_section db tc yr = .ok td)
    (hmr : match_row_by_position td pn = .ok row) :
    ∃ r, db_search_run db tc pn x yr tags = .ok r ∧
      (row.param_a = none → r.ref_A = 0) ∧
      (row.param_b = none → r.ref_B = 0) := by
  cases hrun : db_search_run db tc pn x yr tags with
  | error e =>
    exfalso
    rw [db_search_run] at hrun
    simp only [hfs, hmr] at hrun
    exact Except.noConfusion hrun
  | ok r =>
    rw [db_search_run] at hrun
    simp only [hfs, hmr] at hrun
    injection hrun with h
    subst h
    refine ⟨_, rfl, ?_, ?_⟩
    · intro h
      show row.param_a.getD 0 = 0
      rw [h]
      rfl
    · intro h
      show row.param_b.getD 0 = 0
      rw [h]
      rfl

/-- The table data resolved from `dbC9`. -/
def tdC9 : TableData :=
  { code := "T-9", name_ru := none,
    rows := [{ position_number := some 1, param_b := some 5,
               position_id := some "p1" }],
    table := { table_code := "T-9", year := 2024,
               positions := [{ position_number := some 1, param_b := some 5,
                               position_id := some "p1" }] } }

/-- The matched row of `dbC9`, lacking `param_a`. -/
def rowC9 : Row :=
  { position_number := some 1, param_b := some 5, position_id := some "p1" }

/-- Witness for the amended C9, at the concrete store `dbC9`. -/
theorem claim_C9_witness :
    ∃ r, db_search_run dbC9 "T-9" 1 2 2024 [] = .ok r ∧
      (rowC9.param_a = none → r.ref_A = 0) ∧
      (rowC9.param_b = none → r.ref_B = 0) :=
  claim_C9_amended_missing_constants_defaulted dbC9 "T-9" 1 2 2024 [] tdC9 rowC9
    (by decide) (by decide)

end CostAudit
